import Mathlib

/-!
Verification development for the multi-agent question-answering pipeline.

The definitions below are a shallow embedding of the request-handling core:

* `refusal_engine` and its helpers — `core/refusal_engine.py`
  (the pattern-based risk gate used by `src/core/query_chromadb.py`);
* `is_substantial_question`, `extract_pmids_from_text`,
  `get_links_from_contexts`, `ask_question_stream` — `src/core/query_chromadb.py`;
* `contains_medical_disclaimer` — `src/api/logging.py`;
* `clean_old_sessions`, `get_or_create_session`, `get_session_info` —
  `src/api/sessions.py`;
* `query_agent_core` / `query_agent` — the `/query` route of
  `src/api/routes/query.py`.

External effects are made explicit: regular-expression matching against the
externally loaded pattern tables is an oracle `match_pat`, the embedding /
vector-index / LLM backends are an explicit `Backend` record whose fields give
the outcome of each network call, exceptions are an explicit `Option String`
channel, and Python dict / set state is explicit functional state.
-/

/-! ## Python string primitives

Character-level re-implementations of the Python string operations used by the
source (`str.strip`, `str.lstrip`, `str.lower`, `str.split`, `str.split(',')`,
`'sep'.join`), written with structural recursion on `List Char` so that they
evaluate inside the kernel.
-/

/-- Python whitespace (`str.strip` / `\s` over the ASCII range). -/
def isPySpace (c : Char) : Bool :=
  c = ' ' || c = '\t' || c = '\n' || c = '\r' || c = '\x0b' || c = '\x0c'

/-- ASCII digit test (`\d` over the ASCII range). -/
def isAsciiDigit (c : Char) : Bool :=
  '0' ≤ c && c ≤ '9'

/-- Python `str.lstrip()`. -/
def pylstrip (s : String) : String :=
  ⟨s.data.dropWhile isPySpace⟩

/-- Python `str.strip()`. -/
def pystrip (s : String) : String :=
  ⟨((s.data.dropWhile isPySpace).reverse.dropWhile isPySpace).reverse⟩

/-- Python `str.lower()` (ASCII letters). -/
def pylower (s : String) : String :=
  ⟨s.data.map Char.toLower⟩

/-- Split a character list at every character satisfying `p`, keeping empty
segments (the semantics of Python `str.split(sep)` for a one-character
separator, generalized to a predicate). -/
def splitWhen (p : Char → Bool) : List Char → List (List Char)
  | [] => [[]]
  | c :: rest =>
    let r := splitWhen p rest
    if p c then [] :: r
    else
      match r with
      | [] => [[c]]
      | g :: gs => (c :: g) :: gs

/-- Python `str.split()` with no argument: split on whitespace runs,
discarding empty segments. -/
def pywords (cs : List Char) : List (List Char) :=
  (splitWhen isPySpace cs).filter (fun w => ¬ w.isEmpty)

/-- Python `str.split(',')`. -/
def splitOnComma (s : String) : List String :=
  (splitWhen (fun c => c = ',') s.data).map (fun cs => ⟨cs⟩)

/-- Python `sep.join(list)`. -/
def joinSep (sep : String) : List String → String
  | [] => ""
  | [s] => s
  | s :: rest => s ++ sep ++ joinSep sep rest

/-- Concatenation of a list of strings (accumulation `answer += chunk`). -/
def strConcat (l : List String) : String :=
  l.foldl (fun a b => a ++ b) ""

/-- Boolean prefix test on character lists. -/
def isPrefixB : List Char → List Char → Bool
  | [], _ => true
  | _ :: _, [] => false
  | p :: ps, c :: cs => p = c && isPrefixB ps cs

/-- Boolean substring test on character lists (Python `pat in s`). -/
def isInfixB (pat : List Char) : List Char → Bool
  | [] => isPrefixB pat []
  | c :: cs => isPrefixB pat (c :: cs) || isInfixB pat cs

/-- Python `pat in s` on strings. -/
def strContains (s pat : String) : Bool :=
  isInfixB pat.data s.data

/-! ## Python set-as-list primitives

Python `set` state is embedded as a duplicate-free list in insertion order;
all the source ever does with these sets is `add`, `update`, membership and
conversion to a list, so only the membership structure matters.
-/

/-- `set.add`: append if not already present. -/
def setInsert (s : List String) (x : String) : List String :=
  if x ∈ s then s else s ++ [x]

/-- `set.update`: fold `setInsert` over the new elements. -/
def setUnion (s : List String) (xs : List String) : List String :=
  xs.foldl setInsert s

/-! ## Risk gate — `core/refusal_engine.py`

`src/core/query_chromadb.py` imports `validate_user_query` from
`core.refusal_engine`; the engine's source is
`src/agents/bennutritionniste.ai/core/refusal_engine.py`.  The two JSON
configuration tables (refusal patterns and refusal responses) are external
data and appear here as association-list parameters; `re.search(pat, text,
IGNORECASE)` on a configured pattern literal is the oracle `match_pat`.
-/

/-- The `Decision` enum of `refusal_engine.py`. -/
inductive Decision where
  | ALLOW
  | REFUSE
  | ALLOW_WITH_CONSTRAINTS
deriving DecidableEq, Repr

/-- The `.value` string of each `Decision` enum member. -/
def Decision.value : Decision → String
  | .ALLOW => "allow"
  | .REFUSE => "refuse"
  | .ALLOW_WITH_CONSTRAINTS => "allow_with_constraints"

/-- The `RefusalResult` dataclass (`metadata` holds only its
`matched_categories` entry, the single key the source ever writes). -/
structure RefusalResult where
  decision : Decision
  reasons : List String
  matched_patterns : List String
  response : Option String
  matched_categories : List String
deriving DecidableEq, Repr

/-- The gate's external configuration: the regex-match oracle and the two
JSON tables, keyed by language. -/
structure RefusalCfg where
  match_pat : String → String → Bool
  patterns : List (String × List (String × List String))
  responses : List (String × List (String × String))

/-- `get_refusal_response(response_type, language)`:
`responses.get(language, responses.get("fr", {}))` then
`.get(response_type, .get("general_refusal", ""))`. -/
def get_refusal_response (responses : List (String × List (String × String)))
    (response_type : String) (language : String) : String :=
  let lang_responses := (responses.lookup language).getD ((responses.lookup "fr").getD [])
  (lang_responses.lookup response_type).getD
    ((lang_responses.lookup "general_refusal").getD "")

/-- `get_patterns_for_language(language)`:
`all_patterns.get(language, all_patterns.get("fr", {}))`. -/
def get_patterns_for_language (all_patterns : List (String × List (String × List String)))
    (language : String) : List (String × List String) :=
  (all_patterns.lookup language).getD ((all_patterns.lookup "fr").getD [])

/-- `_match_patterns(text, patterns)`: the configured pattern literals that
match the text. -/
def _match_patterns (m : String → String → Bool) (text : String)
    (patterns : List String) : List String :=
  patterns.filter (fun pat => m pat text)

/-- The `matched` dict of `refusal_engine`: every category paired with its
hits, keeping only categories with at least one hit, in table order. -/
def compute_matched (m : String → String → Bool) (text : String)
    (patterns : List (String × List String)) : List (String × List String) :=
  (patterns.map (fun cp => (cp.1, _match_patterns m text cp.2))).filter
    (fun cp => ¬ cp.2.isEmpty)

/-- `category in matched`. -/
def mhas (matched : List (String × List String)) (c : String) : Bool :=
  (matched.lookup c).isSome

/-- `matched[category]` / `matched.get(category, [])`. -/
def mget (matched : List (String × List String)) (c : String) : List String :=
  (matched.lookup c).getD []

/-- `refusal_engine(question, language)`: the fixed decision cascade of
`refusal_engine.py` lines 82–203. -/
def refusal_engine (cfg : RefusalCfg) (question : String) (language : String) :
    RefusalResult :=
  let combined := pystrip question
  let patterns := get_patterns_for_language cfg.patterns language
  let matched := compute_matched cfg.match_pat combined patterns
  let cats := matched.map Prod.fst
  if mhas matched "medication" then
    { decision := .REFUSE
      reasons := ["Medication / clinical compatibility question"]
      matched_patterns := mget matched "medication"
      response := some (get_refusal_response cfg.responses "medication_refusal" language)
      matched_categories := cats }
  else if mhas matched "minor" && (mhas matched "personalized_request" || mhas matched "meal_plan") then
    { decision := .REFUSE
      reasons := ["Minor + weight/plan/personalized request"]
      matched_patterns := mget matched "minor" ++ mget matched "personalized_request" ++ mget matched "meal_plan"
      response := some (get_refusal_response cfg.responses "minor_refusal" language)
      matched_categories := cats }
  else if mhas matched "possible_emergency" then
    { decision := .REFUSE
      reasons := ["Possible emergency / urgent situation"]
      matched_patterns := mget matched "possible_emergency"
      response := some (get_refusal_response cfg.responses "emergency_refusal" language)
      matched_categories := cats }
  else if mhas matched "clinical_condition" then
    { decision := .REFUSE
      reasons := ["Clinical condition mentioned"]
      matched_patterns := mget matched "clinical_condition"
      response := some (get_refusal_response cfg.responses "general_refusal" language)
      matched_categories := cats }
  else if mhas matched "meal_plan" then
    { decision := .REFUSE
      reasons := ["Meal plan request"]
      matched_patterns := mget matched "meal_plan"
      response := some (get_refusal_response cfg.responses "general_refusal" language)
      matched_categories := cats }
  else if mhas matched "personalized_request" then
    { decision := .REFUSE
      reasons := ["Personalized recommendation request"]
      matched_patterns := mget matched "personalized_request"
      response := some (get_refusal_response cfg.responses "general_refusal" language)
      matched_categories := cats }
  else if mhas matched "supplement" then
    { decision := .ALLOW_WITH_CONSTRAINTS
      reasons := ["Supplement mentioned (allow general info only)"]
      matched_patterns := mget matched "supplement"
      response := none
      matched_categories := cats }
  else if mhas matched "numeric_targets" then
    { decision := .ALLOW_WITH_CONSTRAINTS
      reasons := ["Numeric targets mentioned (avoid numbers in reply)"]
      matched_patterns := mget matched "numeric_targets"
      response := none
      matched_categories := cats }
  else
    { decision := .ALLOW
      reasons := []
      matched_patterns := []
      response := none
      matched_categories := cats }

/-- The dict returned by `validate_user_query` (the `audit` entry repeats the
`RefusalResult` and is omitted; `answer` is only present on REFUSE). -/
structure ValidationResult where
  decision : String
  reasons : List String
  answer : Option String
deriving DecidableEq, Repr

/-- `validate_user_query(question, llm_call_fn, language)` as called with
`llm_call_fn=None` by `ask_question_stream` (only the returned dict matters on
that call path). -/
def validate_user_query (cfg : RefusalCfg) (question : String) (language : String) :
    ValidationResult :=
  let risk := refusal_engine cfg question language
  if risk.decision = Decision.REFUSE then
    { decision := risk.decision.value, reasons := risk.reasons, answer := risk.response }
  else
    { decision := risk.decision.value, reasons := risk.reasons, answer := none }

/-! ## Post-response classifier — `src/api/logging.py` -/

/-- The French phrase list of `contains_medical_disclaimer`. -/
def french_patterns : List String :=
  ["consulter un professionnel",
   "consulte un professionnel",
   "consultez un professionnel",
   "consulter votre médecin",
   "consultez votre médecin",
   "parler à un médecin",
   "parlez à un médecin",
   "voir un médecin",
   "voyez un médecin",
   "demander conseil à un professionnel",
   "demandez conseil à un professionnel",
   "avis médical",
   "consultation médicale",
   "professionnel de santé",
   "professionnel de la santé",
   "nutritionniste",
   "diététicien"]

/-- The English phrase list of `contains_medical_disclaimer`. -/
def english_patterns : List String :=
  ["consult a professional",
   "consult your doctor",
   "see a doctor",
   "talk to a doctor",
   "speak to a doctor",
   "seek medical advice",
   "medical consultation",
   "health professional",
   "healthcare professional",
   "nutritionist",
   "dietitian"]

/-- `contains_medical_disclaimer(response_text)`: case-insensitive substring
test of the fixed phrase list against the answer. -/
def contains_medical_disclaimer (response_text : String) : Bool :=
  if response_text = "" then false
  else
    let response_lower := pylower response_text
    (french_patterns ++ english_patterns).any (fun pat => strContains response_lower pat)

/-! ## Substantiality filter and reference extraction —
`src/core/query_chromadb.py` -/

/-- The `generic_phrases` denylist of `is_substantial_question`. -/
def generic_phrases : List String :=
  ["pose une question",
   "aide moi",
   "bonjour",
   "salut",
   "merci",
   "hello",
   "hi",
   "help",
   "ask a question",
   "ask question"]

/-- `is_substantial_question(question)` (lines 196–228): an empty or
too-short question is not substantial, then fewer than three words of length
three or more is not substantial, then an exact denylist hit (with or without
a trailing question mark) is not substantial. -/
def is_substantial_question (question : String) : Bool :=
  if question = "" || (pystrip question).length < 10 then false
  else if ((pywords question.data).filter (fun w => 3 ≤ w.length)).length < 3 then false
  else if generic_phrases.any (fun phrase =>
      pystrip (pylower question) = phrase || pystrip (pylower question) = phrase ++ "?") then false
  else true

/-- One step bundle for the `PMID:\s*\d+` scan: the literal `PMID:` has just
been read; consume `\s*` then `\d+` greedily.  `pmidFindAllFuel` implements
`re.findall(r'PMID:\s*\d+', text)`: scan left to right, at each position try
the pattern, on failure advance one character, on success continue after the
match.  The fuel argument (initially the list length) only makes the
recursion structural; each call strictly shrinks the character list, so the
fuel is never exhausted. -/
def pmidFindAllFuel : Nat → List Char → List String
  | 0, _ => []
  | _ + 1, [] => []
  | fuel + 1, c :: cs =>
    match c, cs with
    | 'P', 'M' :: 'I' :: 'D' :: ':' :: rest =>
      let sp := rest.takeWhile isPySpace
      let rest1 := rest.dropWhile isPySpace
      let ds := rest1.takeWhile isAsciiDigit
      let rest2 := rest1.dropWhile isAsciiDigit
      if ds.isEmpty then pmidFindAllFuel fuel cs
      else (⟨'P' :: 'M' :: 'I' :: 'D' :: ':' :: (sp ++ ds)⟩ : String) :: pmidFindAllFuel fuel rest2
    | _, _ => pmidFindAllFuel fuel cs

/-- `extract_pmids_from_text(text)` — `re.findall(r'PMID:\s*\d+', text)`. -/
def extract_pmids_from_text (text : String) : List String :=
  pmidFindAllFuel text.data.length text.data

/-- A per-passage ChromaDB metadata dict; only the `links` and `source` keys
are ever read, each possibly absent.  A `none` entry models a non-dict
metadata value (the `isinstance(meta, dict)` guards). -/
structure Meta where
  links : Option String
  source : Option String
deriving DecidableEq, Repr

/-- The references contributed by one metadata entry under priority 1 of
`get_links_from_contexts`: if the entry is a dict whose `links` key holds a
non-empty comma-separated string, each non-blank comma-segment, stripped,
prefixed with `PMID: `. -/
def metaLinkItems : Option Meta → List String
  | some md =>
    match md.links with
    | some l =>
      if l ≠ "" then
        (((splitOnComma l).map pystrip).filter (fun x => x ≠ "")).map
          (fun x => "PMID: " ++ x)
      else []
    | none => []
  | none => []

/-- The priority-1 link set: union of `metaLinkItems` across the metadata
entries, in insertion order. -/
def metaLinksUnion (metas : List (Option Meta)) : List String :=
  metas.foldl (fun acc m => setUnion acc (metaLinkItems m)) []

/-- The `sources` set of priority 3: the `source` values of the dict metadata
entries, deduplicated in insertion order. -/
def collectSources (metas : List (Option Meta)) : List String :=
  metas.foldl
    (fun acc m =>
      match m with
      | some md =>
        match md.source with
        | some s => setInsert acc s
        | none => acc
      | none => acc)
    []

/-- `get_links_from_contexts(contexts, metadatas)` (lines 234–281).
`hasCol` is the truthiness of `get_collection()` and `colGet` the outcome of
`collection.get(ids=chunk0_ids, include=['documents'])` (`.error` models a
raised exception, which the source catches and ignores). -/
def get_links_from_contexts (hasCol : Bool)
    (colGet : List String → Except String (List String))
    (contexts : List String) (metadatas : Option (List (Option Meta))) :
    List String :=
  let links₁ : List String :=
    match metadatas with
    | some ms => metaLinksUnion ms
    | none => []
  if links₁ ≠ [] then links₁
  else
    let links₂ := contexts.foldl (fun acc doc => setUnion acc (extract_pmids_from_text doc)) links₁
    if links₂.isEmpty then
      match metadatas with
      | some ms =>
        if ms.isEmpty then links₂
        else if hasCol then
          let chunk0_ids := (collectSources ms).map (fun src => src ++ "_chunk0")
          if chunk0_ids.isEmpty then links₂
          else
            match colGet chunk0_ids with
            | .ok docs =>
              docs.foldl (fun acc d => if d ≠ "" then setUnion acc (extract_pmids_from_text d) else acc) links₂
            | .error _ => links₂
        else links₂
      | none => links₂
    else links₂

/-! ## Generation streaming and the orchestrator —
`src/core/query_chromadb.py` `ask_question_stream` -/

/-- The `model_config` dict returned by `build_prompt_from_template`. -/
structure ModelConfig where
  supplier : String
  name : String
deriving DecidableEq, Repr

/-- One conversation message (`{'role': ..., 'content': ...}`); the
`timestamp` entry is never read by the pipeline and is omitted. -/
structure Message where
  role : String
  content : String
deriving DecidableEq, Repr

/-- Per-conversation session state (`src/api/sessions.py`).  The `links?` and
`refusals?` fields are `Option` because a pre-existing session dict may lack
the corresponding keys (the backward-compatibility guards in
`get_or_create_session`); `links?` is the dict from question id to cached
reference list, `refusals?` the set of refused question ids. -/
structure Session where
  messages : List Message
  created_at : Nat
  last_activity : Nat
  links? : Option (String → Option (List String))
  refusals? : Option (List String)

/-- The outcome of every external call `ask_question_stream` can make, one
field per call site.  `embedQuery` bundles the embedding call and the
ChromaDB query: `.error e` is an exception raised by either, `.ok (docs,
metas)` the `documents[0]` / `metadatas[0]` of the query result.  `promptOf`
abstracts `build_prompt_from_template` (line 88): its output is determined by
the external `prompts.json` configuration applied to (language, context,
question, history); `modelCfg` is the model configuration from the same file.
`llmChunks` are the streamed chunk contents (`delta.content` for OpenAI,
`chunk.text` for Gemini, `none` for a contentless chunk) and `llmErr` an
exception raised by the backend after those chunks. -/
structure Backend where
  hasCollection : Bool
  embedQuery : Except String (List String × List (Option Meta))
  chunk0 : List String → Except String (List String)
  promptOf : String → String → String → String → Option String
  modelCfg : ModelConfig
  llmChunks : List (Option String)
  llmErr : Option String

/-- The OpenAI streaming loop (lines 379–390): chunks with `content is None`
are skipped; the first chunk with present content is `lstrip`ped and consumes
the `first_chunk` flag (even when its content is empty); a chunk is yielded
iff its (possibly stripped) content is non-empty. -/
def openai_emit (first_chunk : Bool) : List (Option String) → List String
  | [] => []
  | none :: rest => openai_emit first_chunk rest
  | some c :: rest =>
    let c' := if first_chunk then pylstrip c else c
    let first' := if first_chunk then false else first_chunk
    if c' ≠ "" then c' :: openai_emit first' rest else openai_emit first' rest

/-- The Gemini streaming loop (lines 400–408): chunks with falsy `text`
(`None` or empty) are skipped entirely — an empty fragment does not consume
the `first_chunk` flag here; the first truthy fragment is `lstrip`ped. -/
def gemini_emit (first_chunk : Bool) : List (Option String) → List String
  | [] => []
  | none :: rest => gemini_emit first_chunk rest
  | some c :: rest =>
    if c ≠ "" then
      let c' := if first_chunk then pylstrip c else c
      let first' := if first_chunk then false else first_chunk
      if c' ≠ "" then c' :: gemini_emit first' rest else gemini_emit first' rest
    else gemini_emit first_chunk rest

/-- The `history_text` block built at the top of `ask_question_stream`
(lines 290–296): the last seven messages excluding the in-flight one,
rendered with role labels, when the history has more than one entry. -/
def build_history_text (h : List Message) : String :=
  if h.length > 1 then
    let recent := ((h.take (h.length - 1)).drop (h.length - 1 - 6))
    "\n\nHISTORIQUE DE LA CONVERSATION:\n" ++
      strConcat (recent.map (fun m =>
        (if m.role = "user" then "Utilisateur" else "Assistant") ++ ": " ++ m.content ++ "\n"))
  else ""

/-- `session['links'][question_id] = links` guarded by
`session is not None and question_id is not None` (creating the `links` dict
when absent). -/
def saveLinksToSession (session? : Option Session) (question_id? : Option String)
    (links : List String) : Option Session :=
  match session?, question_id? with
  | some s, some q =>
    some { s with links? := some (fun k => if k = q then some links else (s.links?.getD (fun _ => none)) k) }
  | _, _ => session?

/-- The fixed diagnostic emitted when the ChromaDB collection is missing. -/
def no_collection_message : String :=
  "Error: ChromaDB collection is not available. Please run 'python index_chromadb.py' first to index your documents."

/-- The fixed diagnostic emitted when the vector query returns no passage. -/
def no_results_message : String :=
  "No relevant information found. Please make sure you have indexed some transcripts."

/-- The fixed diagnostic emitted when no prompt template loads. -/
def no_prompt_message : String :=
  "Error: Unable to load prompt template."

/-- The `except` clause message prefix of `ask_question_stream`. -/
def error_lead : String :=
  "Error processing your question: "

/-- The `try:` block of `ask_question_stream` (lines 315–411), run after the
gate and the collection check: returns the yielded fragments, the pending
exception (caught by the enclosing `except`), and the updated session. -/
def aqs_try_body (b : Backend) (question language : String)
    (history_text : String) (session? : Option Session) (question_id? : Option String) :
    List String × Option String × Option Session :=
  match b.embedQuery with
  | .error e => ([], some e, session?)
  | .ok (docs, metas) =>
    if docs.isEmpty then ([no_results_message], none, session?)
    else
      let context := joinSep "\n\n" docs
      let links :=
        if is_substantial_question question then
          get_links_from_contexts b.hasCollection b.chunk0 docs (some metas)
        else []
      let session? := saveLinksToSession session? question_id? links
      let prompt? := b.promptOf language context question history_text
      if prompt?.getD "" = "" then ([no_prompt_message], none, session?)
      else if b.modelCfg.supplier = "openai" then
        (openai_emit true b.llmChunks, b.llmErr, session?)
      else if b.modelCfg.supplier = "gemini" then
        (gemini_emit true b.llmChunks, b.llmErr, session?)
      else
        (["Error: Model supplier '" ++ b.modelCfg.supplier ++ "' not supported. Use 'openai' or 'gemini'."],
         none, session?)

/-- `ask_question_stream(question, language, ..., conversation_history,
session, question_id)` (lines 283–414): the full generator, returning the
yielded fragments in order together with the updated session.  The generator
never lets a backend exception escape: the pending exception of the `try`
body is turned into a final error fragment. -/
def ask_question_stream (cfg : RefusalCfg) (b : Backend)
    (question language : String) (conversation_history : List Message)
    (session? : Option Session) (question_id? : Option String) :
    List String × Option Session :=
  let history_text := build_history_text conversation_history
  let refusal_result := validate_user_query cfg question language
  if refusal_result.decision = "refuse" then
    let session? := saveLinksToSession session? question_id? []
    (["__REFUSAL__", refusal_result.answer.getD ""], session?)
  else if !b.hasCollection then
    ([no_collection_message], session?)
  else
    let r := aqs_try_body b question language history_text session? question_id?
    match r.2.1 with
    | some e => (r.1 ++ [error_lead ++ e], r.2.2)
    | none => (r.1, r.2.2)

/-! ## Session store — `src/api/sessions.py`

The process-wide `conversation_sessions` dict is embedded as a function from
session id to `Option Session`; time is in seconds. -/

/-- The session store: `conversation_sessions`. -/
def Store : Type := String → Option Session

/-- `SESSION_TIMEOUT = timedelta(hours=2)`, in seconds. -/
def SESSION_TIMEOUT : Nat := 7200

/-- Dict entry assignment `store[sid] = s`. -/
def storeSet (store : Store) (sid : String) (s : Session) : Store :=
  fun k => if k = sid then some s else store k

/-- `clean_old_sessions()`: drop every session whose inactivity exceeds the
timeout (`now - last_activity > SESSION_TIMEOUT`, with Python's negative
timedelta comparing below the positive timeout mapped to truncated `Nat`
subtraction). -/
def clean_old_sessions (now : Nat) (store : Store) : Store :=
  fun k =>
    match store k with
    | some s => if now - s.last_activity > SESSION_TIMEOUT then none else some s
    | none => none

/-- The fresh session dict created by `get_or_create_session`. -/
def newSession (now : Nat) : Session :=
  { messages := [], created_at := now, last_activity := now
    links? := some (fun _ => none), refusals? := some [] }

/-- `get_or_create_session(session_id)` (lines 26–62).  `fresh` is the
`uuid4` value used when no id (or an empty id — `if not session_id`) was
supplied; the returned session is also written back to the store, modelling
the in-place mutation of the stored dict. -/
def get_or_create_session (now : Nat) (fresh : String) (session_id? : Option String)
    (store : Store) : String × Session × Store :=
  let sid := match session_id? with
    | none => fresh
    | some s => if s = "" then fresh else s
  let store₁ := clean_old_sessions now store
  let store₂ := match store₁ sid with
    | none => storeSet store₁ sid (newSession now)
    | some _ => store₁
  let s₀ := (store₂ sid).getD (newSession now)
  let s :=
    { s₀ with
      links? := some (s₀.links?.getD (fun _ => none))
      refusals? := some (s₀.refusals?.getD [])
      last_activity := now }
  (sid, s, storeSet store₂ sid s)

/-- The `/api/session_info` report (`get_session_info`, lines 73–83): the
`exists` flag, and the message count / timestamps when the session exists. -/
structure SessionInfo where
  exists_flag : Bool
  message_count : Option Nat
  created_at : Option Nat
  last_activity : Option Nat
deriving DecidableEq, Repr

/-- `get_session_info(session_id)`. -/
def get_session_info (store : Store) (session_id : String) : SessionInfo :=
  match store session_id with
  | some s =>
    { exists_flag := true, message_count := some s.messages.length
      created_at := some s.created_at, last_activity := some s.last_activity }
  | none => { exists_flag := false, message_count := none, created_at := none, last_activity := none }

/-! ## The `/query` route — `src/api/routes/query.py` -/

/-- One server-sent event of the response stream. -/
inductive Event where
  | bootstrap (session_id : String) (question_id : String)
  | chunk (s : String)
  | links (ls : List String)
deriving DecidableEq, Repr

/-- Appending the user's message to the session history
(`conversation_history.append(user_message)`). -/
def append_user (session : Session) (question : String) : Session :=
  { session with messages := session.messages ++ [{ role := "user", content := question }] }

/-- The generator's call to `ask_question_stream` inside `query_agent`, on
the session with the user message appended. -/
def qa_stream (cfg : RefusalCfg) (b : Backend) (session : Session)
    (qid question language : String) : List String × Option Session :=
  let s₁ := append_user session question
  ask_question_stream cfg b question language s₁.messages (some s₁) (some qid)

/-- The body of `query_agent` after session resolution (the `generate()`
generator of lines 35–83): stream the answer, detect the refusal marker,
classify the finished answer, update the refusal set, append the assistant
turn or pop the refused user turn, and emit the final reference-list event.
(`save_question_response` writes the external question log and has no effect
on this state.) -/
def query_agent_core (cfg : RefusalCfg) (b : Backend) (sid qid : String)
    (session : Session) (question language : String) : List Event × Session :=
  let s₁ := append_user session question
  let r := ask_question_stream cfg b question language s₁.messages (some s₁) (some qid)
  let chunks := r.1
  let s₂ := r.2.getD s₁
  let is_refusal := chunks.contains "__REFUSAL__"
  let emitted := chunks.filter (fun c => c ≠ "__REFUSAL__")
  let assistant_response := strConcat emitted
  let has_disclaimer := contains_medical_disclaimer assistant_response
  let s₃ :=
    if is_refusal || has_disclaimer then
      { s₂ with refusals? := some (setInsert (s₂.refusals?.getD []) qid) }
    else s₂
  let s₄ :=
    if !is_refusal then
      { s₃ with messages := s₃.messages ++ [{ role := "assistant", content := assistant_response }] }
    else
      { s₃ with messages := s₃.messages.dropLast }
  let links :=
    if !(is_refusal || has_disclaimer) then ((s₄.links?.getD (fun _ => none)) qid).getD []
    else []
  (Event.bootstrap sid qid :: emitted.map Event.chunk ++ [Event.links links], s₄)

/-- The `/query` endpoint `query_agent(request)`: resolve or create the
session, run the generator, and return (session id, question id, streamed
events, final store).  `fresh_sid` and `fresh_qid` are the two `uuid4`
draws. -/
def query_agent (cfg : RefusalCfg) (b : Backend) (now : Nat)
    (fresh_sid fresh_qid : String) (req_sid? : Option String)
    (question language : String) (store : Store) :
    String × String × List Event × Store :=
  let r := get_or_create_session now fresh_sid req_sid? store
  let sid := r.1
  let session := r.2.1
  let store₁ := r.2.2
  let c := query_agent_core cfg b sid fresh_qid session question language
  (sid, fresh_qid, c.1, storeSet store₁ sid c.2)

/-- A category whose pattern list is configured and has at least one matching
pattern appears in the `matched` dict with exactly its matching patterns. -/
theorem lookup_compute_matched (m : String → String → Bool) (text : String)
    (pats : List (String × List String)) (c : String) (ps : List String)
    (h : pats.lookup c = some ps) (hne : _match_patterns m text ps ≠ []) :
    (compute_matched m text pats).lookup c = some (_match_patterns m text ps) := by
  induction pats with
  | nil => simp [List.lookup] at h
  | cons hd tl ih =>
    by_cases hc : c = hd.1
    · subst hc
      simp [List.lookup] at h
      subst h
      simp [compute_matched, List.filter_cons, hne, List.lookup]
    · have hbeq : (c == hd.1) = false := by
        simp [hc]
      simp [List.lookup, hbeq] at h
      have ih' := ih h
      simp [compute_matched, List.filter_cons] at ih' ⊢
      by_cases hk : _match_patterns m text hd.2 = []
      · simp [hk] at ih' ⊢
        exact ih'
      · simp [hk, List.lookup, hbeq] at ih' ⊢
        exact ih'

/-- C1: a "medication" match forces REFUSE with the medication response. -/
theorem C1_medication_priority (cfg : RefusalCfg) (question language : String) (ps : List String)
    (hps : (get_patterns_for_language cfg.patterns language).lookup "medication" = some ps)
    (hmatch : ∃ p ∈ ps, cfg.match_pat p (pystrip question) = true) :
    (refusal_engine cfg question language).decision = Decision.REFUSE ∧
    (refusal_engine cfg question language).response =
      some (get_refusal_response cfg.responses "medication_refusal" language) := by
  obtain ⟨p, hp, hm⟩ := hmatch
  have hne : _match_patterns cfg.match_pat (pystrip question) ps ≠ [] := by
    have : p ∈ _match_patterns cfg.match_pat (pystrip question) ps := by
      simp [_match_patterns, List.mem_filter, hp, hm]
    exact List.ne_nil_of_mem this
  have hl := lookup_compute_matched cfg.match_pat (pystrip question) _ _ _ hps hne
  unfold refusal_engine
  simp [mhas, hl]

def cfgW1 : RefusalCfg :=
  { match_pat := fun pat text => strContains text pat
    patterns := [("fr", [("clinical_condition", ["diabète"]), ("medication", ["médicament"])])]
    responses := [("fr", [("medication_refusal", "Je ne peux pas répondre aux questions de médicaments."),
                          ("general_refusal", "Je ne peux pas répondre.")])] }

theorem C1_medication_priority_witness :
    ((get_patterns_for_language cfgW1.patterns "fr").lookup "medication" = some ["médicament"]) ∧
    (∃ p ∈ ["médicament"], cfgW1.match_pat p (pystrip " Quel médicament pour le diabète? ") = true) ∧
    ((refusal_engine cfgW1 " Quel médicament pour le diabète? " "fr").decision = Decision.REFUSE ∧
     (refusal_engine cfgW1 " Quel médicament pour le diabète? " "fr").response =
       some (get_refusal_response cfgW1.responses "medication_refusal" "fr")) :=
  ⟨by decide, by decide,
   C1_medication_priority cfgW1 " Quel médicament pour le diabète? " "fr" ["médicament"]
     (by decide) (by decide)⟩

/-- C10: language fallback to "fr", response-type fallback to
"general_refusal", empty string when both lookups fail, and the same
language fallback for the pattern table. -/
theorem C10_fallbacks (responses : List (String × List (String × String)))
    (all_patterns : List (String × List (String × List String)))
    (language response_type : String) :
    (responses.lookup language = none →
      get_refusal_response responses response_type language =
        get_refusal_response responses response_type "fr") ∧
    (((responses.lookup language).getD ((responses.lookup "fr").getD [])).lookup response_type = none →
      get_refusal_response responses response_type language =
        (((responses.lookup language).getD ((responses.lookup "fr").getD [])).lookup "general_refusal").getD "") ∧
    (((responses.lookup language).getD ((responses.lookup "fr").getD [])).lookup response_type = none →
     ((responses.lookup language).getD ((responses.lookup "fr").getD [])).lookup "general_refusal" = none →
      get_refusal_response responses response_type language = "") ∧
    (all_patterns.lookup language = none →
      get_patterns_for_language all_patterns language =
        get_patterns_for_language all_patterns "fr") := by
  refine ⟨?_, ?_, ?_, ?_⟩
  · intro h
    unfold get_refusal_response
    rw [h]
    cases hfr : responses.lookup "fr" <;> simp
  · intro h
    simp [get_refusal_response, h]
  · intro h hg
    simp [get_refusal_response, h, hg]
  · intro h
    unfold get_patterns_for_language
    rw [h]
    cases hfr : all_patterns.lookup "fr" <;> simp

theorem C10_fallbacks_witness :
    ([("fr", [("general_refusal", "Je ne peux pas répondre.")])].lookup "de" =
      (none : Option (List (String × String)))) ∧
    get_refusal_response [("fr", [("general_refusal", "Je ne peux pas répondre.")])] "medication_refusal" "de" =
      get_refusal_response [("fr", [("general_refusal", "Je ne peux pas répondre.")])] "medication_refusal" "fr" :=
  ⟨by decide,
   (C10_fallbacks [("fr", [("general_refusal", "Je ne peux pas répondre.")])] [] "de" "medication_refusal").1
     (by decide)⟩

/-- The dict returned by `validate_user_query` says "refuse" exactly when the
engine decision is REFUSE. -/
theorem validate_refuse_iff (cfg : RefusalCfg) (q lang : String) :
    ((validate_user_query cfg q lang).decision = "refuse") ↔
      (refusal_engine cfg q lang).decision = Decision.REFUSE := by
  unfold validate_user_query
  cases h : (refusal_engine cfg q lang).decision <;> simp [h, Decision.value]

/-- On a REFUSE decision the generator yields exactly the marker and the
canned response, records an empty link list, and consults nothing else. -/
theorem aqs_refused (cfg : RefusalCfg) (b : Backend) (q lang : String)
    (hist : List Message) (sess? : Option Session) (qid? : Option String)
    (hdec : (refusal_engine cfg q lang).decision = Decision.REFUSE) :
    ask_question_stream cfg b q lang hist sess? qid? =
      (["__REFUSAL__", (refusal_engine cfg q lang).response.getD ""],
       saveLinksToSession sess? qid? []) := by
  have hv : (validate_user_query cfg q lang).decision = "refuse" :=
    (validate_refuse_iff cfg q lang).mpr hdec
  have ha : (validate_user_query cfg q lang).answer = (refusal_engine cfg q lang).response := by
    unfold validate_user_query
    simp [hdec]
  unfold ask_question_stream
  simp [hv, ha]

/-- Past an allowing gate and an available collection, the generator is the
`try` body with the pending exception routed to the `except` fragment. -/
theorem aqs_after_gate (cfg : RefusalCfg) (b : Backend) (q lang : String)
    (hist : List Message) (sess? : Option Session) (qid? : Option String)
    (hdec : (refusal_engine cfg q lang).decision ≠ Decision.REFUSE)
    (hcol : b.hasCollection = true) :
    ask_question_stream cfg b q lang hist sess? qid? =
      (let r := aqs_try_body b q lang (build_history_text hist) sess? qid?
       match r.2.1 with
       | some e => (r.1 ++ [error_lead ++ e], r.2.2)
       | none => (r.1, r.2.2)) := by
  have hv : ¬ ((validate_user_query cfg q lang).decision = "refuse") := by
    rw [validate_refuse_iff]
    exact hdec
  unfold ask_question_stream
  simp [hv, hcol]

/-- C6: the substantiality filter is exactly (stripped length ≥ 10) ∧
(≥ 3 whitespace-separated words of length ≥ 3) ∧ (lower-cased stripped text
not a denylist entry, exactly or with a trailing question mark); for a
question failing it, the whole stream is independent of the reference
extractor's inputs (per-passage metadata and chunk-0 lookups), and the
reference list cached for the turn is empty. -/
theorem C6_substantiality_filter (question : String) :
    (is_substantial_question question = true ↔
      (10 ≤ (pystrip question).length ∧
       3 ≤ ((pywords question.data).filter (fun w => 3 ≤ w.length)).length ∧
       ∀ phrase ∈ generic_phrases,
         pystrip (pylower question) ≠ phrase ∧ pystrip (pylower question) ≠ phrase ++ "?")) ∧
    (is_substantial_question question = false →
      ∀ (cfg : RefusalCfg) (b : Backend) (language : String) (hist : List Message)
        (sess? : Option Session) (qid? : Option String)
        (metas2 : List (Option Meta)) (c2 : List String → Except String (List String)),
        ask_question_stream cfg
            { b with embedQuery := b.embedQuery.map (fun dm => (dm.1, metas2)), chunk0 := c2 }
            question language hist sess? qid? =
          ask_question_stream cfg b question language hist sess? qid?) ∧
    (is_substantial_question question = false →
      ∀ (cfg : RefusalCfg) (b : Backend) (language : String) (hist : List Message)
        (sess : Session) (qid : String) (docs : List String) (metas : List (Option Meta)),
        (refusal_engine cfg question language).decision ≠ Decision.REFUSE →
        b.hasCollection = true →
        b.embedQuery = .ok (docs, metas) → docs ≠ [] →
        ∃ sf, (ask_question_stream cfg b question language hist (some sess) (some qid)).2 = some sf ∧
          (sf.links?.getD (fun _ => none)) qid = some []) := by
  refine ⟨?_, ?_, ?_⟩
  · constructor
    · intro h
      unfold is_substantial_question at h
      split_ifs at h with h1 h2 h3
      refine ⟨?_, ?_, ?_⟩
      · rcases Nat.lt_or_ge (pystrip question).length 10 with hlt | hge
        · exact absurd (by simp [hlt]) h1
        · exact hge
      · by_contra hw
        exact h2 (by omega)
      · intro phrase hmem
        constructor
        · intro he
          exact h3 (List.any_eq_true.mpr ⟨phrase, hmem, by simp [he]⟩)
        · intro he
          exact h3 (List.any_eq_true.mpr ⟨phrase, hmem, by simp [he]⟩)
    · rintro ⟨hlen, hw, hph⟩
      have hq : question ≠ "" := by
        intro hq
        subst hq
        simp [pystrip, String.length] at hlen
      unfold is_substantial_question
      rw [if_neg, if_neg, if_neg]
      · intro hany
        rcases List.any_eq_true.mp hany with ⟨phrase, hmem, hor⟩
        rcases Bool.or_eq_true _ _ |>.mp hor with he | he
        · exact (hph phrase hmem).1 (by simpa using he)
        · exact (hph phrase hmem).2 (by simpa using he)
      · simp
        omega
      · simp [hq]
        omega
  · intro hsub cfg b language hist sess? qid? metas2 c2
    unfold ask_question_stream aqs_try_body
    cases hb : b.embedQuery with
    | error e => simp [hb, Except.map]
    | ok dm =>
      rcases dm with ⟨docs, metas⟩
      simp [hb, Except.map, hsub]
  · intro hsub cfg b language hist sess qid docs metas hdec hcol hok hdocs
    rw [aqs_after_gate cfg b question language hist (some sess) (some qid) hdec hcol]
    unfold aqs_try_body
    rw [hok]
    simp only [hsub, if_false, Bool.false_eq_true]
    have hde : docs.isEmpty = false := by
      simpa using hdocs
    simp only [hde, Bool.false_eq_true, if_false]
    simp only [saveLinksToSession]
    cases hl : b.llmErr with
    | some e =>
      split_ifs <;> simp [hl]
    | none =>
      split_ifs <;> simp [hl]

/-- A refusal configuration in which no pattern ever matches (the gate
allows everything). -/
def cfgAllow : RefusalCfg :=
  { match_pat := fun _ _ => false
    patterns := [("fr", [("medication", ["médicament"])])]
    responses := [("fr", [("general_refusal", "Je ne peux pas répondre.")])] }

/-- A backend with an available collection, one retrieved passage carrying no
metadata, an OpenAI model and a one-chunk answer. -/
def backendPlain : Backend :=
  { hasCollection := true
    embedQuery := .ok (["Fiber is found in vegetables."], [])
    chunk0 := fun _ => .ok []
    promptOf := fun _ _ _ _ => some "PROMPT"
    modelCfg := { supplier := "openai", name := "gpt-4o-mini" }
    llmChunks := [some "Answer."]
    llmErr := none }

/-- A freshly shaped session. -/
def sessionFresh : Session :=
  { messages := [], created_at := 0, last_activity := 0
    links? := some (fun _ => none), refusals? := some [] }

theorem C6_substantiality_filter_witness :
    (is_substantial_question "merci" = false) ∧
    ((refusal_engine cfgAllow "merci" "fr").decision ≠ Decision.REFUSE) ∧
    (∃ sf, (ask_question_stream cfgAllow backendPlain "merci" "fr" [] (some sessionFresh) (some "q1")).2 = some sf ∧
      (sf.links?.getD (fun _ => none)) "q1" = some []) :=
  ⟨by decide, by decide,
   (C6_substantiality_filter "merci").2.2 (by decide) cfgAllow backendPlain "fr" []
     sessionFresh "q1" ["Fiber is found in vegetables."] [] (by decide) (by decide) rfl (by decide)⟩

/-- Membership in a Python-set insertion. -/
theorem mem_setInsert (s : List String) (x y : String) :
    y ∈ setInsert s x ↔ y ∈ s ∨ y = x := by
  unfold setInsert
  split_ifs with h
  · constructor
    · exact Or.inl
    · rintro (hy | rfl)
      · exact hy
      · exact h
  · simp

/-- Membership in a Python-set union. -/
theorem mem_setUnion (xs : List String) (s : List String) (y : String) :
    y ∈ setUnion s xs ↔ y ∈ s ∨ y ∈ xs := by
  induction xs generalizing s with
  | nil => simp [setUnion]
  | cons hd tl ih =>
    unfold setUnion at ih ⊢
    simp only [List.foldl_cons]
    rw [ih]
    rw [mem_setInsert]
    simp [or_assoc]

/-- Membership in the priority-1 link set is membership in some metadata
entry's annotated links. -/
theorem mem_metaLinksUnion (metas : List (Option Meta)) (y : String) :
    y ∈ metaLinksUnion metas ↔ ∃ m ∈ metas, y ∈ metaLinkItems m := by
  unfold metaLinksUnion
  suffices h : ∀ acc : List String,
      y ∈ metas.foldl (fun acc m => setUnion acc (metaLinkItems m)) acc ↔
        y ∈ acc ∨ ∃ m ∈ metas, y ∈ metaLinkItems m by
    simpa using h []
  induction metas with
  | nil => simp
  | cons hd tl ih =>
    intro acc
    simp only [List.foldl_cons]
    rw [ih]
    rw [mem_setUnion]
    simp [or_assoc]

/-- C3 as stated is false: the annotated identifiers are `12345` and `67890`,
but the extraction returns them prefixed with `PMID: ` — the result is not
the union of the annotated identifiers themselves. -/
theorem C3_counterexample :
    get_links_from_contexts true (fun _ => .ok []) []
        (some [some { links := some "12345,67890", source := none }]) =
      ["PMID: 12345", "PMID: 67890"] ∧
    "12345" ∉ get_links_from_contexts true (fun _ => .ok []) []
        (some [some { links := some "12345,67890", source := none }]) := by
  constructor
  · rfl
  · decide

/-- C3 amended: with a non-empty metadata-level annotation, the extraction
returns exactly the union across passages of the annotated identifiers each
rendered as `PMID: <identifier>`, independently of the passage texts, of the
collection handle and of the chunk-zero lookup (priority (a) short-circuits
(b) and (c)). -/
theorem C3_meta_annotations_win (hasCol hasCol2 : Bool)
    (f f2 : List String → Except String (List String))
    (contexts contexts2 : List String) (metas : List (Option Meta))
    (h : metaLinksUnion metas ≠ []) :
    get_links_from_contexts hasCol f contexts (some metas) = metaLinksUnion metas ∧
    get_links_from_contexts hasCol2 f2 contexts2 (some metas) =
      get_links_from_contexts hasCol f contexts (some metas) ∧
    ∀ x, x ∈ get_links_from_contexts hasCol f contexts (some metas) ↔
      ∃ m ∈ metas, x ∈ metaLinkItems m := by
  have h1 : ∀ (hc : Bool) (g : List String → Except String (List String)) (cs : List String),
      get_links_from_contexts hc g cs (some metas) = metaLinksUnion metas := by
    intro hc g cs
    unfold get_links_from_contexts
    simp [h]
  refine ⟨h1 hasCol f contexts, ?_, ?_⟩
  · rw [h1, h1]
  · intro x
    rw [h1]
    exact mem_metaLinksUnion metas x

theorem C3_meta_annotations_win_witness :
    (metaLinksUnion [some { links := some "12345,67890", source := none },
                     some { links := some " 67890 ", source := some "docA" }] ≠ []) ∧
    get_links_from_contexts true (fun _ => .ok ["PMID: 99999"])
        ["irrelevant text with PMID: 11111"]
        (some [some { links := some "12345,67890", source := none },
               some { links := some " 67890 ", source := some "docA" }]) =
      metaLinksUnion [some { links := some "12345,67890", source := none },
                      some { links := some " 67890 ", source := some "docA" }] :=
  ⟨by decide,
   (C3_meta_annotations_win true true (fun _ => .ok ["PMID: 99999"]) (fun _ => .ok ["PMID: 99999"])
     ["irrelevant text with PMID: 11111"] ["irrelevant text with PMID: 11111"]
     [some { links := some "12345,67890", source := none },
      some { links := some " 67890 ", source := some "docA" }] (by decide)).1⟩

/-- The normalization rule exactly as the specification words it: the first
non-empty fragment is emitted with its leading whitespace stripped (dropped
when nothing remains), every subsequent fragment passes through unmodified. -/
def spec_first_nonempty_normalize : List String → List String
  | [] => []
  | f :: rest =>
    if f = "" then spec_first_nonempty_normalize rest
    else if pylstrip f = "" then rest else pylstrip f :: rest

/-- C5 as stated is false on the OpenAI loop: a leading empty fragment (the
backend may stream a chunk whose content is the empty string) consumes the
stripping, so the first non-empty fragment `" hi"` is emitted with its
leading whitespace intact; a leading whitespace-only fragment consumes it
as well. -/
theorem C5_counterexample :
    openai_emit true [some "", some " hi"] = [" hi"] ∧
    spec_first_nonempty_normalize ["", " hi"] = ["hi"] ∧
    openai_emit true [some "", some " hi"] ≠ spec_first_nonempty_normalize ["", " hi"] ∧
    openai_emit true [some "  ", some " hi"] = [" hi"] ∧
    spec_first_nonempty_normalize ["  ", " hi"] = [" hi"] := by
  refine ⟨rfl, rfl, by decide, rfl, rfl⟩

/-- The declarative shape of what the loops actually emit, written from the
amended claim: the first present fragment — empty or not — consumes the
stripping (emitted stripped when non-empty, silently dropped otherwise), and
every later present fragment is emitted unmodified iff non-empty. -/
def first_present_normalize (frags : List String) : List String :=
  match frags with
  | [] => []
  | f :: rest => (if pylstrip f = "" then [] else [pylstrip f]) ++ rest.filter (fun c => c ≠ "")

/-- After the `first_chunk` flag is consumed, the OpenAI loop emits exactly
the non-empty present contents, unmodified. -/
theorem openai_emit_false (chunks : List (Option String)) :
    openai_emit false chunks = (chunks.filterMap id).filter (fun c => c ≠ "") := by
  induction chunks with
  | nil => rfl
  | cons hd tl ih =>
    cases hd with
    | none => simpa [openai_emit] using ih
    | some c =>
      by_cases hc : c = ""
      · subst hc
        simpa [openai_emit] using ih
      · simp [openai_emit, hc, List.filter_cons, ih]

/-- After the `first_chunk` flag is consumed, the Gemini loop emits exactly
the non-empty present contents, unmodified. -/
theorem gemini_emit_false (chunks : List (Option String)) :
    gemini_emit false chunks = (chunks.filterMap id).filter (fun c => c ≠ "") := by
  induction chunks with
  | nil => rfl
  | cons hd tl ih =>
    cases hd with
    | none => simpa [gemini_emit] using ih
    | some c =>
      by_cases hc : c = ""
      · subst hc
        simpa [gemini_emit] using ih
      · simp [gemini_emit, hc, List.filter_cons, ih]

/-- C5 amended: in the OpenAI branch the first present fragment — even an
empty one — consumes the stripping and is emitted `lstrip`ped iff non-empty;
in the Gemini branch empty fragments are skipped, so the first *non-empty*
fragment consumes the stripping; in both branches every later fragment is
emitted unmodified iff non-empty, so a leading whitespace-only fragment
leaves a later fragment's leading whitespace intact. -/
theorem C5_first_chunk_normalization :
    (∀ chunks : List (Option String),
      openai_emit true chunks = first_present_normalize (chunks.filterMap id)) ∧
    (∀ chunks : List (Option String),
      gemini_emit true chunks =
        first_present_normalize ((chunks.filterMap id).filter (fun c => c ≠ ""))) := by
  constructor
  · intro chunks
    induction chunks with
    | nil => rfl
    | cons hd tl ih =>
      cases hd with
      | none => simpa [openai_emit] using ih
      | some c =>
        by_cases hc : pylstrip c = ""
        · simp [openai_emit, hc, first_present_normalize, openai_emit_false]
        · simp [openai_emit, hc, first_present_normalize, openai_emit_false]
  · intro chunks
    induction chunks with
    | nil => rfl
    | cons hd tl ih =>
      cases hd with
      | none => simpa [gemini_emit] using ih
      | some c =>
        by_cases hc : c = ""
        · subst hc
          simpa [gemini_emit] using ih
        · by_cases hs : pylstrip c = ""
          · simp [gemini_emit, hc, hs, first_present_normalize, List.filter_cons,
                  gemini_emit_false, List.filter_filter]
          · simp [gemini_emit, hc, hs, first_present_normalize, List.filter_cons,
                  gemini_emit_false, List.filter_filter]

/-- The fragment list yielded by the `try` body, independent of the session
bookkeeping. -/
theorem aqs_try_body_yields (b : Backend) (q lang ht : String)
    (sess? : Option Session) (qid? : Option String) :
    (aqs_try_body b q lang ht sess? qid?).1 =
      (match b.embedQuery with
       | .error _ => []
       | .ok (docs, _) =>
         if docs.isEmpty then [no_results_message]
         else if (b.promptOf lang (joinSep "\n\n" docs) q ht).getD "" = "" then [no_prompt_message]
         else if b.modelCfg.supplier = "openai" then openai_emit true b.llmChunks
         else if b.modelCfg.supplier = "gemini" then gemini_emit true b.llmChunks
         else ["Error: Model supplier '" ++ b.modelCfg.supplier ++ "' not supported. Use 'openai' or 'gemini'."]) := by
  unfold aqs_try_body
  cases b.embedQuery with
  | error e => simp
  | ok dm =>
    rcases dm with ⟨docs, metas⟩
    by_cases hde : docs.isEmpty
    · simp [hde]
    · simp only [hde, Bool.false_eq_true, if_false]
      split_ifs <;> simp

/-- The pending-exception channel of the `try` body: an embedding/query
exception, or the generation exception when a streaming branch was
reached. -/
theorem aqs_try_body_exn (b : Backend) (q lang ht : String)
    (sess? : Option Session) (qid? : Option String) :
    (aqs_try_body b q lang ht sess? qid?).2.1 =
      (match b.embedQuery with
       | .error e => some e
       | .ok (docs, _) =>
         if docs.isEmpty then none
         else if (b.promptOf lang (joinSep "\n\n" docs) q ht).getD "" = "" then none
         else if b.modelCfg.supplier = "openai" then b.llmErr
         else if b.modelCfg.supplier = "gemini" then b.llmErr
         else none) := by
  unfold aqs_try_body
  cases b.embedQuery with
  | error e => simp
  | ok dm =>
    rcases dm with ⟨docs, metas⟩
    by_cases hde : docs.isEmpty
    · simp [hde]
    · simp only [hde, Bool.false_eq_true, if_false]
      split_ifs <;> simp

/-- C7: a backend exception during a streamed request is caught and turned
into a single final error fragment.  An embedding/query exception produces
exactly the error fragment; a generation exception appends exactly one error
fragment after the streamed fragments; in every such case the stream is
non-empty, and the generator returns normally (it is a total function into a
fragment list — the pending exception channel of `aqs_try_body` never
escapes `ask_question_stream`). -/
theorem C7_single_error_fragment (cfg : RefusalCfg) (b : Backend)
    (question language : String) (hist : List Message)
    (sess? : Option Session) (qid? : Option String)
    (hdec : (refusal_engine cfg question language).decision ≠ Decision.REFUSE)
    (hcol : b.hasCollection = true) :
    (∀ e, b.embedQuery = .error e →
      (ask_question_stream cfg b question language hist sess? qid?).1 = [error_lead ++ e]) ∧
    (∀ e docs metas, b.embedQuery = .ok (docs, metas) → docs ≠ [] →
      (b.promptOf language (joinSep "\n\n" docs) question (build_history_text hist)).getD "" ≠ "" →
      b.modelCfg.supplier = "openai" → b.llmErr = some e →
      (ask_question_stream cfg b question language hist sess? qid?).1 =
        openai_emit true b.llmChunks ++ [error_lead ++ e]) ∧
    (∀ e docs metas, b.embedQuery = .ok (docs, metas) → docs ≠ [] →
      (b.promptOf language (joinSep "\n\n" docs) question (build_history_text hist)).getD "" ≠ "" →
      b.modelCfg.supplier ≠ "openai" → b.modelCfg.supplier = "gemini" → b.llmErr = some e →
      (ask_question_stream cfg b question language hist sess? qid?).1 =
        gemini_emit true b.llmChunks ++ [error_lead ++ e]) ∧
    (∀ e, (b.embedQuery = .error e ∨ b.llmErr = some e) →
      (ask_question_stream cfg b question language hist sess? qid?).1 ≠ []) := by
  rw [aqs_after_gate cfg b question language hist sess? qid? hdec hcol]
  have hy := aqs_try_body_yields b question language (build_history_text hist) sess? qid?
  have hx := aqs_try_body_exn b question language (build_history_text hist) sess? qid?
  refine ⟨?_, ?_, ?_, ?_⟩
  · intro e he
    rw [he] at hy hx
    simp only [hy, hx]
    simp
  · intro e docs metas hok hdocs hprompt hsup herr
    have hde : docs.isEmpty = false := by simpa using hdocs
    rw [hok] at hy hx
    simp only [hde, Bool.false_eq_true, if_false, if_neg hprompt, if_pos hsup, herr] at hy hx
    simp only [hy, hx]
  · intro e docs metas hok hdocs hprompt hsup hgem herr
    have hde : docs.isEmpty = false := by simpa using hdocs
    rw [hok] at hy hx
    simp only [hde, Bool.false_eq_true, if_false, if_neg hprompt, if_neg hsup, if_pos hgem, herr] at hy hx
    simp only [hy, hx]
  · intro e he
    rcases he with he | he
    · rw [he] at hy hx
      simp only [hy, hx]
      simp
    · cases hq : b.embedQuery with
      | error e2 =>
        rw [hq] at hy hx
        simp only [hy, hx]
        simp
      | ok dm =>
        rcases dm with ⟨docs, metas⟩
        rw [hq] at hy hx
        by_cases hde : docs.isEmpty
        · simp only [hde, if_true] at hy hx
          simp [hy, hx, no_results_message]
        · simp only [hde, Bool.false_eq_true, if_false] at hy hx
          by_cases hprompt : (b.promptOf language (joinSep "\n\n" docs) question (build_history_text hist)).getD "" = ""
          · simp only [if_pos hprompt] at hy hx
            simp [hy, hx, no_prompt_message]
          · simp only [if_neg hprompt] at hy hx
            by_cases hsup : b.modelCfg.supplier = "openai"
            · simp only [if_pos hsup] at hy hx
              simp [hy, hx, he]
            · simp only [if_neg hsup] at hy hx
              by_cases hgem : b.modelCfg.supplier = "gemini"
              · simp only [if_pos hgem] at hy hx
                simp [hy, hx, he]
              · simp only [if_neg hgem] at hy hx
                simp [hy, hx]

/-- A backend whose embedding/query call raises. -/
def backendEmbedFail : Backend :=
  { hasCollection := true
    embedQuery := .error "connection reset"
    chunk0 := fun _ => .ok []
    promptOf := fun _ _ _ _ => some "PROMPT"
    modelCfg := { supplier := "openai", name := "gpt-4o-mini" }
    llmChunks := []
    llmErr := none }

theorem C7_single_error_fragment_witness :
    ((refusal_engine cfgAllow "What are the benefits of fiber?" "fr").decision ≠ Decision.REFUSE) ∧
    (backendEmbedFail.hasCollection = true) ∧
    ((ask_question_stream cfgAllow backendEmbedFail "What are the benefits of fiber?" "fr" [] none none).1 =
      [error_lead ++ "connection reset"]) :=
  ⟨by decide, rfl,
   (C7_single_error_fragment cfgAllow backendEmbedFail "What are the benefits of fiber?" "fr" [] none none
     (by decide) rfl).1 "connection reset" rfl⟩

/-- C2: when the gate refuses, the handler's entire outcome is independent of
the generation backend (no embedding or model call can influence it), the
stream is exactly the refusal marker followed by the canned response, and
after the request the session at the returned id has its history restored to
the pre-request state (the just-appended user turn popped), the turn id in
its refusal set, and an empty cached reference list for the turn. -/
theorem C2_refuse_no_generation (cfg : RefusalCfg) (b b2 : Backend) (now : Nat)
    (fresh_sid fresh_qid : String) (req_sid? : Option String)
    (question language : String) (store : Store)
    (hdec : (refusal_engine cfg question language).decision = Decision.REFUSE) :
    query_agent cfg b now fresh_sid fresh_qid req_sid? question language store =
      query_agent cfg b2 now fresh_sid fresh_qid req_sid? question language store ∧
    (∀ (hist : List Message) (sess? : Option Session) (qid? : Option String),
      (ask_question_stream cfg b question language hist sess? qid?).1 =
        ["__REFUSAL__", (refusal_engine cfg question language).response.getD ""]) ∧
    (∃ sf,
      (query_agent cfg b now fresh_sid fresh_qid req_sid? question language store).2.2.2
          (query_agent cfg b now fresh_sid fresh_qid req_sid? question language store).1 = some sf ∧
      sf.messages = (get_or_create_session now fresh_sid req_sid? store).2.1.messages ∧
      fresh_qid ∈ sf.refusals?.getD [] ∧
      (sf.links?.getD (fun _ => none)) fresh_qid = some []) := by
  have hb := fun hist sess? qid? => aqs_refused cfg b question language hist sess? qid? hdec
  have hb2 := fun hist sess? qid? => aqs_refused cfg b2 question language hist sess? qid? hdec
  refine ⟨?_, ?_, ?_⟩
  · simp only [query_agent, query_agent_core, hb, hb2]
  · intro hist sess? qid?
    rw [aqs_refused cfg b question language hist sess? qid? hdec]
  · simp only [query_agent, query_agent_core, hb]
    simp only [saveLinksToSession, append_user, List.contains_cons, beq_self_eq_true,
               Bool.true_or, if_true, Option.getD_some]
    simp [storeSet, mem_setInsert, List.dropLast_concat]

/-- The empty session store. -/
def storeEmpty : Store := fun _ => none

theorem C2_refuse_no_generation_witness :
    ((refusal_engine cfgW1 "Quel médicament faut-il prendre?" "fr").decision = Decision.REFUSE) ∧
    (query_agent cfgW1 backendPlain 0 "s1" "q1" none "Quel médicament faut-il prendre?" "fr" storeEmpty =
      query_agent cfgW1 backendEmbedFail 0 "s1" "q1" none "Quel médicament faut-il prendre?" "fr" storeEmpty) :=
  ⟨by decide,
   (C2_refuse_no_generation cfgW1 backendPlain backendEmbedFail 0 "s1" "q1" none
     "Quel médicament faut-il prendre?" "fr" storeEmpty (by decide)).1⟩

/-- The last element of a stream that ends with one terminal event. -/
theorem getLast_cons_append_single {α : Type} (a x : α) (l : List α) :
    (a :: (l ++ [x])).getLast? = some x := by
  induction l generalizing a with
  | nil => rfl
  | cons b t ih =>
    rw [List.cons_append, List.getLast?_cons_cons]
    exact ih b

/-- C4: when a completed (non-refused) answer contains a disclaimer phrase,
the final event of the stream is an empty reference-list event — whatever
references retrieval cached for the turn — and the turn id is added to the
session's refusal set. -/
theorem C4_disclaimer_suppresses_links (cfg : RefusalCfg) (b : Backend)
    (sid qid : String) (session : Session) (question language : String)
    (hno : ((qa_stream cfg b session qid question language).1).contains "__REFUSAL__" = false)
    (hdisc : contains_medical_disclaimer
        (strConcat ((qa_stream cfg b session qid question language).1.filter
          (fun c => c ≠ "__REFUSAL__"))) = true) :
    ((query_agent_core cfg b sid qid session question language).1).getLast? =
      some (Event.links []) ∧
    qid ∈ ((query_agent_core cfg b sid qid session question language).2).refusals?.getD [] := by
  simp only [qa_stream] at hno hdisc
  simp only [query_agent_core, hno, hdisc]
  simp only [Bool.false_or, Bool.not_true, Bool.not_false, if_true, if_false,
             Bool.false_eq_true, Bool.true_eq_false, Bool.or_true]
  constructor
  · exact getLast_cons_append_single _ _ _
  · simp [mem_setInsert]

/-- A backend whose retrieval caches one reference and whose generated answer
contains a disclaimer phrase. -/
def backendDisclaimer : Backend :=
  { hasCollection := true
    embedQuery := .ok (["Fiber slows digestion."], [some { links := some "12345", source := none }])
    chunk0 := fun _ => .ok []
    promptOf := fun _ _ _ _ => some "PROMPT"
    modelCfg := { supplier := "openai", name := "gpt-4o-mini" }
    llmChunks := [some "For personal advice, consult a healthcare professional."]
    llmErr := none }

theorem C4_disclaimer_suppresses_links_witness :
    (((qa_stream cfgAllow backendDisclaimer sessionFresh "q1"
        "What are the benefits of dietary fiber?" "en").1).contains "__REFUSAL__" = false) ∧
    (contains_medical_disclaimer
      (strConcat ((qa_stream cfgAllow backendDisclaimer sessionFresh "q1"
        "What are the benefits of dietary fiber?" "en").1.filter
          (fun c => c ≠ "__REFUSAL__"))) = true) ∧
    (((query_agent_core cfgAllow backendDisclaimer "s1" "q1" sessionFresh
        "What are the benefits of dietary fiber?" "en").1).getLast? = some (Event.links []) ∧
     "q1" ∈ ((query_agent_core cfgAllow backendDisclaimer "s1" "q1" sessionFresh
        "What are the benefits of dietary fiber?" "en").2).refusals?.getD []) :=
  ⟨by decide, by decide,
   C4_disclaimer_suppresses_links cfgAllow backendDisclaimer "s1" "q1" sessionFresh
     "What are the benefits of dietary fiber?" "en" (by decide) (by decide)⟩

/-- The session routed out of `ask_question_stream`'s `except` wrapper is the
`try` body's session. -/
theorem aqs_wrap_sess (r : List String × Option String × Option Session) :
    (match r.2.1 with
     | some e => (r.1 ++ [error_lead ++ e], r.2.2)
     | none => (r.1, r.2.2)).2 = r.2.2 := by
  rcases r with ⟨a, x, c⟩
  cases x <;> rfl

/-- The `try` body only ever touches the session's `links` dict: every other
field is preserved, and `links?` either stays or is replaced by a present
dict. -/
theorem aqs_try_body_sess (b : Backend) (q lang ht : String) (s : Session) (qid : String) :
    ∃ sf, (aqs_try_body b q lang ht (some s) (some qid)).2.2 = some sf ∧
      sf.messages = s.messages ∧ sf.refusals? = s.refusals? ∧
      sf.created_at = s.created_at ∧ sf.last_activity = s.last_activity ∧
      (sf.links? = s.links? ∨ ∃ g, sf.links? = some g) := by
  unfold aqs_try_body
  cases b.embedQuery with
  | error e => exact ⟨s, rfl, rfl, rfl, rfl, rfl, Or.inl rfl⟩
  | ok dm =>
    rcases dm with ⟨docs, metas⟩
    by_cases hde : docs.isEmpty
    · simp only [hde, if_true]
      exact ⟨s, rfl, rfl, rfl, rfl, rfl, Or.inl rfl⟩
    · simp only [hde, Bool.false_eq_true, if_false, saveLinksToSession]
      split_ifs <;> exact ⟨_, rfl, rfl, rfl, rfl, rfl, Or.inr ⟨_, rfl⟩⟩

/-- `ask_question_stream` called with a session and a question id returns a
session: messages, refusal set and timestamps unchanged, and the links dict
present whenever it was present before. -/
theorem aqs_session_fields (cfg : RefusalCfg) (b : Backend) (q lang : String)
    (hist : List Message) (s : Session) (qid : String) :
    ∃ sf, (ask_question_stream cfg b q lang hist (some s) (some qid)).2 = some sf ∧
      sf.messages = s.messages ∧ sf.refusals? = s.refusals? ∧
      sf.created_at = s.created_at ∧ sf.last_activity = s.last_activity ∧
      (s.links?.isSome = true → sf.links?.isSome = true) := by
  by_cases hdec : (refusal_engine cfg q lang).decision = Decision.REFUSE
  · rw [aqs_refused cfg b q lang hist (some s) (some qid) hdec]
    simp only [saveLinksToSession]
    exact ⟨_, rfl, rfl, rfl, rfl, rfl, fun _ => rfl⟩
  · by_cases hcol : b.hasCollection = true
    · rw [aqs_after_gate cfg b q lang hist (some s) (some qid) hdec hcol]
      simp only [aqs_wrap_sess]
      obtain ⟨sf, hsf, hm, hr, hc, hl, hlk⟩ :=
        aqs_try_body_sess b q lang (build_history_text hist) s qid
      refine ⟨sf, hsf, hm, hr, hc, hl, ?_⟩
      intro hs
      rcases hlk with hlk | ⟨g, hlk⟩
      · rw [hlk]
        exact hs
      · rw [hlk]
        rfl
    · have hv : ¬ ((validate_user_query cfg q lang).decision = "refuse") := by
        rw [validate_refuse_iff]
        exact hdec
      have hcol2 : b.hasCollection = false := by
        simpa using hcol
      unfold ask_question_stream
      simp only [if_neg hv, hcol2, Bool.not_false, if_true]
      exact ⟨s, rfl, rfl, rfl, rfl, rfl, fun h => h⟩

/-- The generator body of the `/query` route preserves the presence of the
session's `links` dict and `refusals` set. -/
theorem core_preserves_shape (cfg : RefusalCfg) (b : Backend) (sid qid : String)
    (session : Session) (question language : String)
    (hl : session.links?.isSome = true) (hr : session.refusals?.isSome = true) :
    ((query_agent_core cfg b sid qid session question language).2).links?.isSome = true ∧
    ((query_agent_core cfg b sid qid session question language).2).refusals?.isSome = true := by
  obtain ⟨sf, hsf, hm, hrf, hc, hla, hlk⟩ :=
    aqs_session_fields cfg b question language (append_user session question).messages
      (append_user session question) qid
  have hlf : sf.links?.isSome = true := hlk hl
  have hrf1 : sf.refusals? = session.refusals? := hrf
  simp only [query_agent_core, hsf, Option.getD_some]
  constructor
  · split_ifs <;> simp [hlf]
  · split_ifs <;> simp [hrf1, hr]

/-- C9: the session returned by `get_or_create_session` always carries a
`links` dict and a `refusals` set (whether created fresh or pre-existing,
including pre-existing sessions missing either key), it is the session the
store holds at the returned id, and the `/query` generator body preserves
that shape.  (The `messages` list is present by construction of the session
record.) -/
theorem C9_session_shape (now : Nat) (fresh : String) (sid? : Option String) (store : Store) :
    ((get_or_create_session now fresh sid? store).2.1).links?.isSome = true ∧
    ((get_or_create_session now fresh sid? store).2.1).refusals?.isSome = true ∧
    ((get_or_create_session now fresh sid? store).2.2) (get_or_create_session now fresh sid? store).1 =
      some (get_or_create_session now fresh sid? store).2.1 ∧
    (∀ (cfg : RefusalCfg) (b : Backend) (qid question language : String),
      ((query_agent_core cfg b (get_or_create_session now fresh sid? store).1 qid
          (get_or_create_session now fresh sid? store).2.1 question language).2).links?.isSome = true ∧
      ((query_agent_core cfg b (get_or_create_session now fresh sid? store).1 qid
          (get_or_create_session now fresh sid? store).2.1 question language).2).refusals?.isSome = true) := by
  refine ⟨rfl, rfl, ?_, ?_⟩
  · simp [get_or_create_session, storeSet]
  · intro cfg b qid question language
    exact core_preserves_shape cfg b _ qid _ question language rfl rfl

theorem contains_false_of_not_mem {l : List String} {a : String} (h : a ∉ l) :
    l.contains a = false := by
  cases hB : l.contains a with
  | false => rfl
  | true => exact absurd (List.mem_of_elem_eq_true hB) h

theorem contains_true_of_mem {l : List String} {a : String} (h : a ∈ l) :
    l.contains a = true :=
  List.elem_eq_true_of_mem h

/-- The except-clause fragment never equals the refusal marker. -/
theorem error_fragment_ne_marker (e : String) : error_lead ++ e ≠ "__REFUSAL__" := by
  intro h
  have h2 : (error_lead ++ e).data = "__REFUSAL__".data := congrArg String.data h
  rw [String.data_append] at h2
  have h3 : (error_lead.data ++ e.data).head? = ("__REFUSAL__".data).head? :=
    congrArg List.head? h2
  simp [error_lead] at h3

/-- The unsupported-supplier diagnostic never equals the refusal marker. -/
theorem supplier_fragment_ne_marker (s : String) :
    ("Error: Model supplier '" ++ s ++ "' not supported. Use 'openai' or 'gemini'.") ≠ "__REFUSAL__" := by
  intro h
  have h2 := congrArg (fun t => t.data.head?) h
  simp only [String.data_append] at h2
  simp at h2

/-- Past an allowing gate, the refusal marker never appears among the yielded
fragments as long as neither streaming loop emits the literal marker. -/
theorem aqs_no_marker (cfg : RefusalCfg) (b : Backend) (q lang : String)
    (hist : List Message) (sess? : Option Session) (qid? : Option String)
    (hdec : (refusal_engine cfg q lang).decision ≠ Decision.REFUSE)
    (hmf : "__REFUSAL__" ∉ openai_emit true b.llmChunks ∧
           "__REFUSAL__" ∉ gemini_emit true b.llmChunks) :
    "__REFUSAL__" ∉ (ask_question_stream cfg b q lang hist sess? qid?).1 := by
  by_cases hcol : b.hasCollection = true
  · rw [aqs_after_gate cfg b q lang hist sess? qid? hdec hcol]
    have hy := aqs_try_body_yields b q lang (build_history_text hist) sess? qid?
    have hnotY : "__REFUSAL__" ∉ (aqs_try_body b q lang (build_history_text hist) sess? qid?).1 := by
      rw [hy]
      cases hq : b.embedQuery with
      | error e => simp
      | ok dm =>
        rcases dm with ⟨docs, metas⟩
        by_cases hde : docs.isEmpty
        · simp [hde, no_results_message]
        · simp only [hde, Bool.false_eq_true, if_false]
          split_ifs
          · simp [no_prompt_message]
          · exact hmf.1
          · exact hmf.2
          · intro hmem
            rcases List.mem_singleton.mp hmem with h
            exact supplier_fragment_ne_marker _ h.symm
    intro hmem
    rcases hc : (aqs_try_body b q lang (build_history_text hist) sess? qid?).2.1 with _ | e
    · simp only [hc] at hmem
      exact hnotY hmem
    · simp only [hc] at hmem
      rcases List.mem_append.mp hmem with h | h
      · exact hnotY h
      · exact error_fragment_ne_marker e (List.mem_singleton.mp h).symm
  · have hv : ¬ ((validate_user_query cfg q lang).decision = "refuse") := by
      rw [validate_refuse_iff]
      exact hdec
    have hcol2 : b.hasCollection = false := by simpa using hcol
    unfold ask_question_stream
    simp only [if_neg hv, hcol2, Bool.not_false, if_true]
    simp [no_collection_message]

/-- Appending one element and dropping the last element restores a list. -/
theorem dropLast_append_single {α : Type} (l : List α) (a : α) :
    (l ++ [a]).dropLast = l := by
  simp

/-- Message-count bookkeeping of the `/query` generator body: a gate-refused
exchange leaves the history unchanged (the user turn is popped), any other
exchange appends exactly the user turn and the assistant turn; timestamps
are untouched.  The hypothesis excludes the degenerate backend that streams
the literal refusal marker as answer text. -/
theorem core_messages (cfg : RefusalCfg) (b : Backend) (sid qid : String)
    (session : Session) (question language : String)
    (hmf : "__REFUSAL__" ∉ openai_emit true b.llmChunks ∧
           "__REFUSAL__" ∉ gemini_emit true b.llmChunks) :
    ((query_agent_core cfg b sid qid session question language).2).messages.length =
      session.messages.length +
        (if (refusal_engine cfg question language).decision = Decision.REFUSE then 0 else 2) ∧
    ((query_agent_core cfg b sid qid session question language).2).created_at = session.created_at ∧
    ((query_agent_core cfg b sid qid session question language).2).last_activity = session.last_activity := by
  obtain ⟨sf, hsf, hm, hrf, hc, hla, hlk⟩ :=
    aqs_session_fields cfg b question language (append_user session question).messages
      (append_user session question) qid
  by_cases hdec : (refusal_engine cfg question language).decision = Decision.REFUSE
  · have hstr := aqs_refused cfg b question language (append_user session question).messages
      (some (append_user session question)) (some qid) hdec
    simp only [query_agent_core, hstr]
    simp only [saveLinksToSession, List.contains_cons, beq_self_eq_true, Bool.true_or,
               if_true, Option.getD_some, hdec]
    simp [append_user, dropLast_append_single]
  · have hnm : "__REFUSAL__" ∉ (ask_question_stream cfg b question language
        (append_user session question).messages (some (append_user session question)) (some qid)).1 :=
      aqs_no_marker cfg b question language (append_user session question).messages
        (some (append_user session question)) (some qid) hdec hmf
    have hcont := contains_false_of_not_mem hnm
    simp only [query_agent_core, hsf, Option.getD_some, hcont, hdec]
    simp only [Bool.false_or, Bool.not_false, if_true, Bool.true_eq_false, if_false]
    split_ifs <;>
      simp [hm, hc, hla, append_user, Nat.add_assoc]

/-- The session as rewritten in place by `get_or_create_session` for an
existing entry: backward-compatibility keys ensured and `last_activity`
bumped. -/
def session_refresh (s : Session) (now : Nat) : Session :=
  { s with links? := some (s.links?.getD (fun _ => none))
           refusals? := some (s.refusals?.getD [])
           last_activity := now }

/-- `get_or_create_session` on a present, non-expired session id resolves to
that session, refreshed, and writes it back. -/
theorem get_or_create_existing (now : Nat) (fresh sid : String) (store : Store) (s : Session)
    (hsid : sid ≠ "") (hs : store sid = some s)
    (hgap : now - s.last_activity ≤ SESSION_TIMEOUT) :
    get_or_create_session now fresh (some sid) store =
      (sid, session_refresh s now,
       storeSet (clean_old_sessions now store) sid (session_refresh s now)) := by
  have hclean : clean_old_sessions now store sid = some s := by
    simp [clean_old_sessions, hs, Nat.not_lt.mpr hgap]
  unfold get_or_create_session
  simp only [if_neg hsid, hclean]
  simp [session_refresh, hclean]

/-- One `/query` request against an existing, non-expired session: the stored
session keeps its identity, gains zero messages when the gate refused and
exactly two (user + assistant) otherwise, and carries the request time as its
last activity. -/
theorem query_agent_step (cfg : RefusalCfg) (b : Backend) (now : Nat) (fs fq sid : String)
    (question language : String) (store : Store) (s : Session)
    (hsid : sid ≠ "") (hs : store sid = some s)
    (hgap : now - s.last_activity ≤ SESSION_TIMEOUT)
    (hmf : "__REFUSAL__" ∉ openai_emit true b.llmChunks ∧
           "__REFUSAL__" ∉ gemini_emit true b.llmChunks) :
    ∃ s2, (query_agent cfg b now fs fq (some sid) question language store).2.2.2 sid = some s2 ∧
      s2.messages.length = s.messages.length +
        (if (refusal_engine cfg question language).decision = Decision.REFUSE then 0 else 2) ∧
      s2.last_activity = now := by
  have hgo := get_or_create_existing now fs sid store s hsid hs hgap
  unfold query_agent
  simp only [hgo]
  refine ⟨(query_agent_core cfg b sid fq (session_refresh s now) question language).2, ?_, ?_, ?_⟩
  · simp [storeSet]
  · exact (core_messages cfg b sid fq (session_refresh s now) question language hmf).1
  · exact (core_messages cfg b sid fq (session_refresh s now) question language hmf).2.2

/-- One inbound `/query` request: its gate/backend environment, arrival time,
the `uuid4` question id, and the question. -/
structure QRequest where
  cfg : RefusalCfg
  b : Backend
  now : Nat
  fresh_qid : String
  question : String
  language : String

/-- Run a sequence of requests against one session id, threading the store. -/
def run_requests (sid : String) (reqs : List QRequest) (store : Store) : Store :=
  reqs.foldl
    (fun st r =>
      (query_agent r.cfg r.b r.now sid r.fresh_qid (some sid) r.question r.language st).2.2.2)
    store

/-- A request the gate refuses. -/
def req_refused (r : QRequest) : Bool :=
  (refusal_engine r.cfg r.question r.language).decision = Decision.REFUSE

/-- Request arrival times each within the session timeout of the previous
activity. -/
def times_ok : Nat → List QRequest → Prop
  | _, [] => True
  | last, r :: rs => (r.now - last ≤ SESSION_TIMEOUT) ∧ times_ok r.now rs

/-- A request whose streaming loops never emit the literal refusal marker as
answer text. -/
def marker_free (r : QRequest) : Prop :=
  "__REFUSAL__" ∉ openai_emit true r.b.llmChunks ∧
  "__REFUSAL__" ∉ gemini_emit true r.b.llmChunks

/-- Folded form of `query_agent_step`: across a request sequence the stored
session accumulates two messages per non-refused request. -/
theorem run_requests_count (reqs : List QRequest) :
    ∀ (store : Store) (sid : String) (s : Session),
      sid ≠ "" → store sid = some s →
      times_ok s.last_activity reqs → (∀ r ∈ reqs, marker_free r) →
      ∃ s2, run_requests sid reqs store sid = some s2 ∧
        s2.messages.length = s.messages.length +
          2 * (reqs.filter (fun r => !req_refused r)).length := by
  induction reqs with
  | nil =>
    intro store sid s _ hs _ _
    exact ⟨s, hs, by simp⟩
  | cons r rs ih =>
    intro store sid s hsid hs ht hmf
    obtain ⟨s1, hs1, hlen1, hla1⟩ :=
      query_agent_step r.cfg r.b r.now sid r.fresh_qid sid r.question r.language store s
        hsid hs ht.1 (hmf r (List.mem_cons_self r rs))
    have ht2 : times_ok s1.last_activity rs := by
      rw [hla1]
      exact ht.2
    obtain ⟨s2, hs2, hlen2⟩ :=
      ih _ sid s1 hsid hs1 ht2 (fun x hx => hmf x (List.mem_cons_of_mem r hx))
    refine ⟨s2, hs2, ?_⟩
    rw [hlen2, hlen1]
    by_cases hr : req_refused r
    · have hd : (refusal_engine r.cfg r.question r.language).decision = Decision.REFUSE := by
        simpa [req_refused] using hr
      simp [List.filter_cons, hr, hd]
    · have hd : ¬ (refusal_engine r.cfg r.question r.language).decision = Decision.REFUSE := by
        simpa [req_refused] using hr
      simp [List.filter_cons, hr, hd]
      ring

/-- C8: a session created with no explicit id, then driven through any
sequence of requests within the inactivity timeout, reports `exists = true`
via session-info, with a message count of exactly two messages (user turn +
assistant turn) per exchange the gate allowed and zero per refused exchange
(the popped user turn and the never-appended assistant turn excluded). -/
theorem C8_session_info_roundtrip (store : Store) (now0 : Nat) (fresh : String)
    (reqs : List QRequest)
    (hfresh : fresh ≠ "")
    (hnew : clean_old_sessions now0 store fresh = none)
    (ht : times_ok now0 reqs)
    (hmf : ∀ r ∈ reqs, marker_free r) :
    (get_or_create_session now0 fresh none store).1 = fresh ∧
    (get_session_info
        (run_requests fresh reqs (get_or_create_session now0 fresh none store).2.2)
        fresh).exists_flag = true ∧
    (get_session_info
        (run_requests fresh reqs (get_or_create_session now0 fresh none store).2.2)
        fresh).message_count =
      some (2 * (reqs.filter (fun r => !req_refused r)).length) := by
  have hgo : get_or_create_session now0 fresh none store =
      (fresh, session_refresh (newSession now0) now0,
       storeSet (storeSet (clean_old_sessions now0 store) fresh (newSession now0)) fresh
         (session_refresh (newSession now0) now0)) := by
    unfold get_or_create_session
    simp only [hnew]
    simp [storeSet, session_refresh, newSession]
  have hs0 : (get_or_create_session now0 fresh none store).2.2 fresh =
      some (session_refresh (newSession now0) now0) := by
    rw [hgo]
    simp [storeSet]
  obtain ⟨s2, hs2, hlen⟩ :=
    run_requests_count reqs ((get_or_create_session now0 fresh none store).2.2) fresh
      (session_refresh (newSession now0) now0) hfresh hs0 ht hmf
  refine ⟨by rw [hgo], ?_, ?_⟩
  · simp [get_session_info, hs2]
  · simp only [get_session_info, hs2]
    rw [hlen]
    simp [session_refresh, newSession]

/-- A request the gate refuses (medication pattern). -/
def reqRefuse : QRequest :=
  { cfg := cfgW1, b := backendPlain, now := 1, fresh_qid := "q1"
    question := "Quel médicament faut-il prendre?", language := "fr" }

/-- A request the gate allows. -/
def reqAllow : QRequest :=
  { cfg := cfgAllow, b := backendPlain, now := 2, fresh_qid := "q2"
    question := "What are the benefits of dietary fiber?", language := "en" }

theorem C8_session_info_roundtrip_witness :
    ("s1" ≠ "") ∧
    (clean_old_sessions 0 storeEmpty "s1" = none) ∧
    (times_ok 0 [reqRefuse, reqAllow]) ∧
    (∀ r ∈ [reqRefuse, reqAllow], marker_free r) ∧
    ((get_session_info
        (run_requests "s1" [reqRefuse, reqAllow]
          (get_or_create_session 0 "s1" none storeEmpty).2.2)
        "s1").message_count = some (2 * ([reqRefuse, reqAllow].filter (fun r => !req_refused r)).length)) :=
  ⟨by decide, rfl,
   by
    refine ⟨?_, ?_, trivial⟩ <;> decide,
   by
    intro r hr
    rcases List.mem_cons.mp hr with h | h
    · subst h
      exact ⟨by decide, by decide⟩
    · rcases List.mem_singleton.mp h with h2
      subst h2
      exact ⟨by decide, by decide⟩,
   (C8_session_info_roundtrip storeEmpty 0 "s1" [reqRefuse, reqAllow] (by decide) rfl
     (by refine ⟨?_, ?_, trivial⟩ <;> decide)
     (by
       intro r hr
       rcases List.mem_cons.mp hr with h | h
       · subst h
         exact ⟨by decide, by decide⟩
       · rcases List.mem_singleton.mp h with h2
         subst h2
         exact ⟨by decide, by decide⟩)).2.2⟩
